import Mathlib

/-!
Verification of the Google Pay Web Push Provisioning integration library
(src/unnamed/part_001, integration.js).

The library is a browser module: a JavaScript value model (JSVal), the
options validator (AppOptions), the window session manager (AppContext),
the message router (handleMessageEvent) and the public entry point
(openAppWindow) are embedded shallowly below.  Machine-level aspects that
the code relies on are made explicit:

  * JS values are modelled by the inductive JSVal; numbers are modelled as
    integers (every concrete number in the library and in the claims is an
    integer; NaN and fractional values are outside the model).
  * window.open is modelled by an Env record saying whether it returns a
    handle, and window.name of the host page is a field of Env (the library
    reads it but never writes it).
  * Thrown errors are modelled by Except String; the error codes are the
    string values of the ErrorCode enum of the source.
  * Callback functions are opaque references (JSVal.funv); an operation
    reports the invoked callback together with the payload it was passed.
-/

mutual

inductive JSVal where
  | undefv
  | nullv
  | boolv (b : Bool)
  | numv (n : Int)
  | strv (s : String)
  | funv (id : Nat)
  | objv (fields : JSFields)
deriving DecidableEq, Repr

inductive JSFields where
  | nil
  | cons (key : String) (value : JSVal) (rest : JSFields)
deriving DecidableEq, Repr

end

/-- Property lookup in an object literal: first binding of the key wins
(JS object literals with duplicate keys keep the last, but no object in the
claims uses a duplicate key). -/
def JSFields.lookup (k : String) : JSFields → Option JSVal
  | .nil => none
  | .cons key value rest => if key = k then some value else rest.lookup k

/-- JS property access v[k].  The source only reads properties of values it
has guarded to be objects (or normalised with "|| {}"), and property access
on a non-object primitive such as a string or number yields undefined. -/
def getField (v : JSVal) (k : String) : JSVal :=
  match v with
  | .objv l => (l.lookup k).getD .undefv
  | _ => .undefv

/-- The JS typeof operator (typeof null is "object"). -/
def jsTypeof : JSVal → String
  | .undefv => "undefined"
  | .nullv => "object"
  | .boolv _ => "boolean"
  | .numv _ => "number"
  | .strv _ => "string"
  | .funv _ => "function"
  | .objv _ => "object"

/-- JS truthiness: undefined, null, false, 0 and "" are falsy (NaN is not in
the model), everything else is truthy. -/
def jsTruthy : JSVal → Bool
  | .undefv => false
  | .nullv => false
  | .boolv b => b
  | .numv n => n != 0
  | .strv s => s != ""
  | .funv _ => true
  | .objv _ => true

/-- JS value.toString() as used when a value is written into a URL
parameter.  Functions and objects stringify to source text and
"[object Object]" respectively; those cases are abstracted with fixed
strings (no claim inspects them). -/
def jsToString : JSVal → String
  | .undefv => "undefined"
  | .nullv => "null"
  | .boolv b => if b then "true" else "false"
  | .numv n => toString n
  | .strv s => s
  | .funv _ => "function"
  | .objv _ => "[object Object]"

def WINDOW_GOOGLEPAY_KEY : String := "googlepay"

def API_VERSION : String := "V1_6"

def PROD_GOOGLE_PAY_ORIGIN : String := "https://pay.google.com"

def TEST_GOOGLE_PAY_ORIGIN : String := "https://pay.sandbox.google.com"

def APP_URL_PATH : String := "/gp/v/a/pushprovisioning/frame"

def FIXED_APP_WINDOW_ID_1 : String := "googlepay-webpp-v1_6-app-window-1"

def FIXED_APP_WINDOW_ID_2 : String := "googlepay-webpp-v1_6-app-window-2"

def MIN_CONTENT_HEIGHT : Int := 700

def MIN_CONTENT_WIDTH : Int := 1100

def POLL_APP_WINDOW_CLOSED_INTERVAL_MS : Nat := 200

namespace Action

def FAILURE : String := "failure"

def READY : String := "ready"

def SESSION_CREATED : String := "sessionCreated"

def SUCCESS : String := "success"

end Action

namespace ErrorCode

def INVALID_OR_MISSING_APP_OPTIONS : String := "E406"

def INVALID_OR_MISSING_ON_SESSION_CREATED : String := "E407"

def INVALID_OPTIONAL_CALLBACK : String := "E408"

def INVALID_CONTENT_DIMENSIONS : String := "E409"

def APP_WINDOW_ALREADY_OPEN : String := "E410"

def APP_WINDOW_NOT_OPENED : String := "E411"

end ErrorCode

/-- function assert(condition, errorCode): throw on a false condition. -/
def assert (condition : Bool) (errorCode : String) : Except String Unit :=
  if condition then .ok () else .error errorCode

/-- function assertValueType(value, allowedTypes, errorCode). -/
def assertValueType (value : JSVal) (allowedTypes : List String)
    (errorCode : String) : Except String JSVal := do
  assert (allowedTypes.contains (jsTypeof value)) errorCode
  pure value

/-- function joinParams(paramMap, delimiter); the insertion-ordered Map is
modelled as an association list (all keys inserted by the library are
distinct, so list append is faithful to Map.set). -/
def joinParams (paramMap : List (String × String)) (delimiter : String) :
    String :=
  String.intercalate delimiter (paramMap.map fun p => p.1 ++ "=" ++ p.2)

/-- The validated options record built by the AppOptions constructor.  All
fields hold the JS values extracted from the caller's appOptions object. -/
structure AppOptions where
  onSessionCreated : JSVal
  onReady : JSVal
  onSuccess : JSVal
  onFailure : JSVal
  onFinish : JSVal
  onCancel : JSVal
  contentHeight : JSVal
  contentWidth : JSVal
  integratorId : JSVal
  tokenSetting : JSVal
  cardSetting : JSVal
  isTestEnvironment : JSVal
  clientSessionId : JSVal
  hl : JSVal
deriving DecidableEq, Repr

/-- constructor AppOptions(appOptionsObject): validates the callbacks and
the content dimensions in source order, extracts everything else as-is. -/
def AppOptions.build (appOptionsObject : JSVal) : Except String AppOptions := do
  let assertOptionalCallback := fun (value : JSVal) =>
    assertValueType value ["function", "undefined"]
      ErrorCode.INVALID_OPTIONAL_CALLBACK
  let onSessionCreated ← assertValueType
    (getField appOptionsObject "onSessionCreated") ["function"]
    ErrorCode.INVALID_OR_MISSING_ON_SESSION_CREATED
  let onReady ← assertOptionalCallback (getField appOptionsObject "onReady")
  let onSuccess ← assertOptionalCallback (getField appOptionsObject "onSuccess")
  let onFailure ← assertOptionalCallback (getField appOptionsObject "onFailure")
  let onFinish ← assertOptionalCallback (getField appOptionsObject "onFinish")
  let onCancel ← assertOptionalCallback (getField appOptionsObject "onCancel")
  let contentHeight ← assertValueType
    (getField appOptionsObject "contentHeight") ["number", "undefined"]
    ErrorCode.INVALID_CONTENT_DIMENSIONS
  let contentWidth ← assertValueType
    (getField appOptionsObject "contentWidth") [jsTypeof contentHeight]
    ErrorCode.INVALID_CONTENT_DIMENSIONS
  pure {
    onSessionCreated := onSessionCreated
    onReady := onReady
    onSuccess := onSuccess
    onFailure := onFailure
    onFinish := onFinish
    onCancel := onCancel
    contentHeight := contentHeight
    contentWidth := contentWidth
    integratorId := getField appOptionsObject "integratorId"
    tokenSetting := getField appOptionsObject "tokenSetting"
    cardSetting := getField appOptionsObject "cardSetting"
    isTestEnvironment := getField appOptionsObject "isTestEnvironment"
    clientSessionId := getField appOptionsObject "clientSessionId"
    hl := getField appOptionsObject "hl" }

/-- Math.max(n, v) for a dimension value v.  For options that passed
validation, v is a number or undefined, and the call site is guarded by a
truthiness check, so only the number case is ever reached there. -/
def jsMaxNum (n : Int) (v : JSVal) : Int :=
  match v with
  | .numv m => max n m
  | _ => n

/-- static AppContext.getAppWindowFeatures_(appOptions). -/
def getAppWindowFeatures_ (appOptions : AppOptions) : String :=
  if jsTruthy appOptions.contentHeight = false ∨
      jsTruthy appOptions.contentWidth = false then
    ""
  else
    joinParams
      [("height", toString (jsMaxNum MIN_CONTENT_HEIGHT appOptions.contentHeight)),
       ("width", toString (jsMaxNum MIN_CONTENT_WIDTH appOptions.contentWidth))]
      ","

/-- The processUrlParam closure of getAppQueryString_: append the parameter
to the (insertion-ordered) map unless the value is undefined, '' or null.
encodeURIComponent is an external browser primitive, passed in as encode. -/
def processUrlParam (encode : String → String)
    (urlParamMap : List (String × String)) (urlParamKey : String)
    (value : JSVal) : List (String × String) :=
  if jsTypeof value ≠ "undefined" ∧ value ≠ .strv "" ∧ value ≠ .nullv then
    urlParamMap ++ [(urlParamKey, encode (jsToString value))]
  else
    urlParamMap

/-- The URL parameter map built by getAppQueryString_, in insertion order.
pageOrigin models getCurrentPageOrigin(). -/
def getUrlParamMap_ (encode : String → String) (pageOrigin : String)
    (appOptions : AppOptions) (appWindowFeatures : String) :
    List (String × String) :=
  processUrlParam encode
    (processUrlParam encode
      (processUrlParam encode
        (processUrlParam encode
          (processUrlParam encode
            (processUrlParam encode
              [("apiVersion", API_VERSION), ("origin", encode pageOrigin)]
              "integratorId" appOptions.integratorId)
            "tokenSetting" appOptions.tokenSetting)
          "cardSetting" appOptions.cardSetting)
        "csid" appOptions.clientSessionId)
      "hl" appOptions.hl)
    "windowFeatures" (.strv appWindowFeatures)

/-- static AppContext.getAppQueryString_(appOptions, appWindowFeatures). -/
def getAppQueryString_ (encode : String → String) (pageOrigin : String)
    (appOptions : AppOptions) (appWindowFeatures : String) : String :=
  "?" ++ joinParams (getUrlParamMap_ encode pageOrigin appOptions
    appWindowFeatures) "&"

/-- The browser environment an openAppWindow call runs in: the host page's
window.name (read, never written, by the library) and whether window.open
returns a handle. -/
structure Env where
  windowName : String
  windowOpenSucceeds : Bool
deriving DecidableEq, Repr

/-- The state of an AppContext.  appWindowClosed models the .closed flag of
the popup window handle: false right after a successful window.open, set by
the user closing the window (externalClose) or by closeAppWindow. -/
structure AppContext where
  onSessionCreated : JSVal
  onReady : JSVal
  onSuccess : JSVal
  onFailure : JSVal
  onFinish_ : JSVal
  onCancel_ : JSVal
  appWindowId_ : String
  appOrigin_ : String
  hasAppWindow_ : Bool
  appWindowClosed : Bool
  receivedAppOutcome_ : Bool
deriving DecidableEq, Repr

/-- constructor AppContext(appOptions): picks the window identifier from the
host window's name, the origin from the test-environment flag, opens the
window (throws E411 when window.open returns no handle) and starts with the
outcome flag false.  The URL computation (getAppQueryString_) has no effect
on the session state and is modelled separately. -/
def AppContext.build (appOptions : AppOptions) (env : Env) :
    Except String AppContext := do
  let ctx : AppContext := {
    onSessionCreated := appOptions.onSessionCreated
    onReady := appOptions.onReady
    onSuccess := appOptions.onSuccess
    onFailure := appOptions.onFailure
    onFinish_ := appOptions.onFinish
    onCancel_ := appOptions.onCancel
    appWindowId_ :=
      if env.windowName = FIXED_APP_WINDOW_ID_1 then FIXED_APP_WINDOW_ID_2
      else FIXED_APP_WINDOW_ID_1
    appOrigin_ :=
      if jsTruthy appOptions.isTestEnvironment then TEST_GOOGLE_PAY_ORIGIN
      else PROD_GOOGLE_PAY_ORIGIN
    hasAppWindow_ := env.windowOpenSucceeds
    appWindowClosed := false
    receivedAppOutcome_ := false }
  assert ctx.hasAppWindow_ ErrorCode.APP_WINDOW_NOT_OPENED
  pure ctx

/-- AppContext.isAppWindowOpen(). -/
def isAppWindowOpen (c : AppContext) : Bool :=
  c.hasAppWindow_ && !c.appWindowClosed

/-- AppContext.closeAppWindow(): close the window if it is open. -/
def closeAppWindow (c : AppContext) : AppContext :=
  if isAppWindowOpen c then { c with appWindowClosed := true } else c

/-- static AppContext.makeActionMap_ followed by Map.get(action): the
callback registered for an action value (undefined for unknown actions,
matching Map.get on a missing key). -/
def actionMapGet (c : AppContext) (action : JSVal) : JSVal :=
  if action = .strv Action.SESSION_CREATED then c.onSessionCreated
  else if action = .strv Action.READY then c.onReady
  else if action = .strv Action.SUCCESS then c.onSuccess
  else if action = .strv Action.FAILURE then c.onFailure
  else .undefv

/-- An inbound 'message' event: its origin and its data value. -/
structure MessageEvent where
  origin : String
  data : JSVal
deriving DecidableEq, Repr

/-- messageEvent.data || {}. -/
def msgData (e : MessageEvent) : JSVal :=
  if jsTruthy e.data then e.data else .objv .nil

/-- The acceptance condition of AppContext.handleMessageEvent: the source
returns early when its negation (window not open, or origin mismatch, or
appWindowId mismatch, or falsy action) holds. -/
def msgAccepted (c : AppContext) (e : MessageEvent) : Bool :=
  isAppWindowOpen c && e.origin == c.appOrigin_ &&
    getField (msgData e) "appWindowId" == .strv c.appWindowId_ &&
    jsTruthy (getField (msgData e) "action")

/-- AppContext.handleMessageEvent(messageEvent): returns the updated session
state and the invoked callback with its payload argument, if any. -/
def handleMessageEvent (c : AppContext) (messageEvent : MessageEvent) :
    AppContext × Option (JSVal × JSVal) :=
  if msgAccepted c messageEvent = false then (c, none)
  else
    let action := getField (msgData messageEvent) "action"
    let c' :=
      if action = .strv Action.SUCCESS ∨ action = .strv Action.FAILURE then
        { c with receivedAppOutcome_ := true }
      else c
    let callback := actionMapGet c action
    if jsTruthy callback then
      (c', some (callback, getField (msgData messageEvent) "payload"))
    else (c', none)

/-- One tick of AppContext.pollAppWindowClosed_(): returns the invoked
callback with its (empty) payload, if any, and whether the method schedules
itself again. -/
def pollAppWindowClosed_ (c : AppContext) :
    Option (JSVal × JSVal) × Bool :=
  if c.appWindowClosed then
    (if jsTruthy c.onFinish_ ∧ c.receivedAppOutcome_ then
       some (c.onFinish_, .objv .nil)
     else if jsTruthy c.onCancel_ ∧ c.receivedAppOutcome_ = false then
       some (c.onCancel_, .objv .nil)
     else none, false)
  else
    (none,
     jsTruthy c.onFinish_ ||
       (jsTruthy c.onCancel_ && !c.receivedAppOutcome_))

/-- function openAppWindow(appOptionsObject), against the current singleton:
validate the options object, reject when the current window is still open,
and construct the new AppContext (which opens the window). -/
def openAppWindow (appOptionsObject : JSVal) (env : Env)
    (currentAppContext : Option AppContext) : Except String AppContext := do
  let _ ← assertValueType appOptionsObject ["object"]
    ErrorCode.INVALID_OR_MISSING_APP_OPTIONS
  assert (appOptionsObject != .nullv) ErrorCode.INVALID_OR_MISSING_APP_OPTIONS
  let appOptions ← AppOptions.build appOptionsObject
  assert
    (match currentAppContext with
     | none => true
     | some c => !isAppWindowOpen c)
    ErrorCode.APP_WINDOW_ALREADY_OPEN
  AppContext.build appOptions env

/-- The effect of one openAppWindow call on the singleton currentAppContext:
on success the new context is installed; a thrown error propagates to the
caller before the assignment runs, leaving the singleton as it was. -/
def runOpenAppWindow (appOptionsObject : JSVal) (env : Env)
    (currentAppContext : Option AppContext) :
    Option String × Option AppContext :=
  match openAppWindow appOptionsObject env currentAppContext with
  | .error e => (some e, currentAppContext)
  | .ok ctx => (none, some ctx)

/-- The operations that can touch a live session's state: an inbound message
event, a poll tick, a closeAppWindow call, and the popup being closed from
outside (by the user or by navigation). -/
inductive SessionOp where
  | message (e : MessageEvent)
  | pollTick
  | closeCall
  | externalClose
deriving DecidableEq, Repr

/-- The state transition of one session operation (poll ticks never mutate
the session state; they only read it). -/
def stepOp (c : AppContext) : SessionOp → AppContext
  | .message e => (handleMessageEvent c e).1
  | .pollTick => c
  | .closeCall => closeAppWindow c
  | .externalClose => { c with appWindowClosed := true }

/-- Run a sequence of session operations from a state. -/
def runOps (c : AppContext) : List SessionOp → AppContext
  | [] => c
  | op :: ops => runOps (stepOp c op) ops

/-- An operation that marks the outcome flag: an accepted message whose
action is "success" or "failure". -/
def acceptedOutcomeOp (c : AppContext) : SessionOp → Bool
  | .message e =>
      msgAccepted c e &&
        (getField (msgData e) "action" == .strv Action.SUCCESS ||
         getField (msgData e) "action" == .strv Action.FAILURE)
  | _ => false

theorem AppContext_build_eq (opts : AppOptions) (env : Env) :
    AppContext.build opts env =
      if env.windowOpenSucceeds then
        .ok {
          onSessionCreated := opts.onSessionCreated
          onReady := opts.onReady
          onSuccess := opts.onSuccess
          onFailure := opts.onFailure
          onFinish_ := opts.onFinish
          onCancel_ := opts.onCancel
          appWindowId_ :=
            if env.windowName = FIXED_APP_WINDOW_ID_1 then FIXED_APP_WINDOW_ID_2
            else FIXED_APP_WINDOW_ID_1
          appOrigin_ :=
            if jsTruthy opts.isTestEnvironment then TEST_GOOGLE_PAY_ORIGIN
            else PROD_GOOGLE_PAY_ORIGIN
          hasAppWindow_ := env.windowOpenSucceeds
          appWindowClosed := false
          receivedAppOutcome_ := false }
      else .error ErrorCode.APP_WINDOW_NOT_OPENED := by
  unfold AppContext.build assert
  cases h : env.windowOpenSucceeds <;> simp [h, Bind.bind, Except.bind, Pure.pure, Except.pure]

/-- The condition of the already-open assert in openAppWindow:
!currentAppContext || !currentAppContext.isAppWindowOpen(). -/
def curWindowFree : Option AppContext → Bool
  | none => true
  | some c => !isAppWindowOpen c

theorem openAppWindow_eq (v : JSVal) (env : Env) (cur : Option AppContext) :
    openAppWindow v env cur =
      if jsTypeof v = "object" then
        if v = .nullv then .error ErrorCode.INVALID_OR_MISSING_APP_OPTIONS
        else
          match AppOptions.build v with
          | .error e => .error e
          | .ok opts =>
            if curWindowFree cur then AppContext.build opts env
            else .error ErrorCode.APP_WINDOW_ALREADY_OPEN
      else .error ErrorCode.INVALID_OR_MISSING_APP_OPTIONS := by
  unfold openAppWindow assertValueType assert
  by_cases h1 : jsTypeof v = "object"
  · by_cases h2 : v = JSVal.nullv
    · simp [h2, Bind.bind, Except.bind, Pure.pure, Except.pure, jsTypeof]
    · simp [h1, h2, bne, Bind.bind, Except.bind, Pure.pure, Except.pure]
      cases h3 : AppOptions.build v with
      | error e => simp [h3, Bind.bind, Except.bind]
      | ok opts =>
        simp
        cases cur with
        | none => simp [h3, curWindowFree, Bind.bind, Except.bind, Pure.pure, Except.pure]
        | some c => cases h4 : isAppWindowOpen c <;> simp [h3, h4, curWindowFree, Bind.bind, Except.bind, Pure.pure, Except.pure]
  · simp [h1, Bind.bind, Except.bind, Pure.pure, Except.pure]

theorem handleMessageEvent_state (c : AppContext) (e : MessageEvent) :
    (handleMessageEvent c e).1 = c ∨
    (handleMessageEvent c e).1 = { c with receivedAppOutcome_ := true } := by
  unfold handleMessageEvent
  dsimp only
  split_ifs <;> simp

theorem handleMessageEvent_not_accepted (c : AppContext) (e : MessageEvent)
    (h : msgAccepted c e = false) : handleMessageEvent c e = (c, none) := by
  simp [handleMessageEvent, h]

theorem stepOp_received_mono (c : AppContext) (op : SessionOp)
    (h : c.receivedAppOutcome_ = true) :
    (stepOp c op).receivedAppOutcome_ = true := by
  cases op with
  | message e =>
    rcases handleMessageEvent_state c e with h1 | h1 <;> simp [stepOp, h1, h]
  | pollTick => exact h
  | closeCall =>
    simp only [stepOp, closeAppWindow]
    split_ifs <;> simp [h]
  | externalClose => simp [stepOp, h]

theorem runOps_received_mono (ops : List SessionOp) :
    ∀ c : AppContext, c.receivedAppOutcome_ = true →
      (runOps c ops).receivedAppOutcome_ = true := by
  induction ops with
  | nil => intro c h; simpa [runOps] using h
  | cons op ops ih =>
    intro c h
    exact ih _ (stepOp_received_mono c op h)

theorem handleMessageEvent_outcome (c : AppContext) (e : MessageEvent)
    (hacc : msgAccepted c e = true)
    (hact : getField (msgData e) "action" = .strv Action.SUCCESS ∨
      getField (msgData e) "action" = .strv Action.FAILURE) :
    (handleMessageEvent c e).1.receivedAppOutcome_ = true := by
  rcases hact with h | h <;>
    simp [handleMessageEvent, hacc, h] <;> split_ifs <;> simp

/-- No operation in the list is an accepted "success"/"failure" message for
the state at which it runs. -/
def noOutcomeAccepted (c : AppContext) : List SessionOp → Bool
  | [] => true
  | op :: ops => !acceptedOutcomeOp c op && noOutcomeAccepted (stepOp c op) ops

theorem stepOp_received_false (c : AppContext) (op : SessionOp)
    (h : c.receivedAppOutcome_ = false)
    (hno : acceptedOutcomeOp c op = false) :
    (stepOp c op).receivedAppOutcome_ = false := by
  cases op with
  | message e =>
    by_cases hacc : msgAccepted c e = true
    · simp only [acceptedOutcomeOp, hacc, Bool.true_and, Bool.or_eq_false_iff,
        beq_eq_false_iff_ne, ne_eq] at hno
      simp only [stepOp]
      unfold handleMessageEvent
      simp only [hacc]
      split_ifs with h1 h2 <;> simp_all [handleMessageEvent]
    · have hacc' : msgAccepted c e = false := by
        cases hmsg : msgAccepted c e
        · rfl
        · exact absurd hmsg hacc
      simp [stepOp, handleMessageEvent_not_accepted c e hacc', h]
  | pollTick => exact h
  | closeCall =>
    simp only [stepOp, closeAppWindow]
    split_ifs <;> simp [h]
  | externalClose => simp [stepOp, h]

theorem runOps_received_false (ops : List SessionOp) :
    ∀ c : AppContext, c.receivedAppOutcome_ = false →
      noOutcomeAccepted c ops = true →
      (runOps c ops).receivedAppOutcome_ = false := by
  induction ops with
  | nil => intro c h _; simpa [runOps] using h
  | cons op ops ih =>
    intro c h hno
    simp only [noOutcomeAccepted, Bool.and_eq_true, Bool.not_eq_true'] at hno
    exact ih _ (stepOp_received_false c op h hno.1) hno.2

theorem openAppWindow_ok_appWindowId (v : JSVal) (env : Env)
    (cur : Option AppContext) (c : AppContext)
    (h : openAppWindow v env cur = .ok c) :
    c.appWindowId_ =
      (if env.windowName = FIXED_APP_WINDOW_ID_1 then FIXED_APP_WINDOW_ID_2
       else FIXED_APP_WINDOW_ID_1) := by
  rw [openAppWindow_eq] at h
  by_cases h1 : jsTypeof v = "object"
  · simp only [h1, if_true] at h
    by_cases h2 : v = JSVal.nullv
    · simp [h2] at h
    · simp only [h2, if_false] at h
      cases h3 : AppOptions.build v with
      | error e => simp [h3] at h
      | ok opts =>
        simp only [h3] at h
        rw [AppContext_build_eq] at h
        split_ifs at h <;>
          first
            | (simp only [Except.ok.injEq] at h
               subst h
               simp [*])
            | simp at h
  · simp [h1] at h

/-- A minimal valid appOptions object: just the required callback. -/
def minimalAppOptionsObject : JSVal :=
  .objv (.cons "onSessionCreated" (.funv 0) .nil)

/-- A host browser environment: the host window has the empty name (the
default for a normal page) and window.open succeeds. -/
def defaultEnv : Env := { windowName := "", windowOpenSucceeds := true }

/-- The session produced by openAppWindow for minimalAppOptionsObject in
defaultEnv. -/
def ctxMinimal : AppContext := {
  onSessionCreated := .funv 0
  onReady := .undefv
  onSuccess := .undefv
  onFailure := .undefv
  onFinish_ := .undefv
  onCancel_ := .undefv
  appWindowId_ := FIXED_APP_WINDOW_ID_1
  appOrigin_ := PROD_GOOGLE_PAY_ORIGIN
  hasAppWindow_ := true
  appWindowClosed := false
  receivedAppOutcome_ := false }

/-- C1, as stated, is false: two consecutive successful openAppWindow calls
from a host page (whose window name is not one of the fixed constants),
with the first window closed in between, assign the SAME identifier
FIXED_APP_WINDOW_ID_1 to both sessions, not the two distinct constants in
alternation.  The identifier is computed from the host window's name, which
the library reads but never writes. -/
theorem C1_counterexample :
    openAppWindow minimalAppOptionsObject defaultEnv none = .ok ctxMinimal ∧
    openAppWindow minimalAppOptionsObject defaultEnv
        (some (closeAppWindow ctxMinimal)) = .ok ctxMinimal ∧
    ctxMinimal.appWindowId_ = FIXED_APP_WINDOW_ID_1 ∧
    ¬(ctxMinimal.appWindowId_ = FIXED_APP_WINDOW_ID_1 ∧
      ctxMinimal.appWindowId_ = FIXED_APP_WINDOW_ID_2) := by
  refine ⟨by rfl, by rfl, by rfl, ?_⟩
  intro hcontra
  exact absurd (hcontra.1.symm.trans hcontra.2) (by decide)

/-- C1 (amended): the window identifier is a function of the host window's
name only - FIXED_APP_WINDOW_ID_2 when that name equals
FIXED_APP_WINDOW_ID_1, else FIXED_APP_WINDOW_ID_1.  The library never
writes the host window's name, so two consecutive successful opens in the
same environment (with the first window closed in between) receive the
same identifier. -/
theorem C1_theorem (env : Env) (v1 v2 : JSVal) (cur : Option AppContext)
    (c1 c2 : AppContext)
    (h1 : openAppWindow v1 env cur = .ok c1)
    (h2 : openAppWindow v2 env (some (closeAppWindow c1)) = .ok c2) :
    c1.appWindowId_ =
      (if env.windowName = FIXED_APP_WINDOW_ID_1 then FIXED_APP_WINDOW_ID_2
       else FIXED_APP_WINDOW_ID_1) ∧
    c2.appWindowId_ = c1.appWindowId_ := by
  have e1 := openAppWindow_ok_appWindowId v1 env cur c1 h1
  have e2 := openAppWindow_ok_appWindowId v2 env (some (closeAppWindow c1)) c2 h2
  exact ⟨e1, e2.trans e1.symm⟩

/-- Witness for C1_theorem at the concrete two-open trace of the
counterexample. -/
theorem C1_witness :
    openAppWindow minimalAppOptionsObject defaultEnv none = .ok ctxMinimal ∧
    openAppWindow minimalAppOptionsObject defaultEnv
        (some (closeAppWindow ctxMinimal)) = .ok ctxMinimal ∧
    (ctxMinimal.appWindowId_ =
        (if defaultEnv.windowName = FIXED_APP_WINDOW_ID_1 then
          FIXED_APP_WINDOW_ID_2
         else FIXED_APP_WINDOW_ID_1) ∧
      ctxMinimal.appWindowId_ = ctxMinimal.appWindowId_) :=
  ⟨by rfl, by rfl,
    C1_theorem defaultEnv minimalAppOptionsObject minimalAppOptionsObject none
      ctxMinimal ctxMinimal (by rfl) (by rfl)⟩

/-- C2: handleMessageEvent invokes no callback and leaves the session state
unchanged unless the window is open, the event origin equals the session's
target origin, the message's appWindowId equals the session's window
identifier and the message's action is non-empty (truthy); in particular an
origin mismatch alone already makes the event a no-op. -/
theorem C2_theorem (c : AppContext) (e : MessageEvent) :
    (¬(isAppWindowOpen c = true ∧ e.origin = c.appOrigin_ ∧
        getField (msgData e) "appWindowId" = .strv c.appWindowId_ ∧
        jsTruthy (getField (msgData e) "action") = true) →
      handleMessageEvent c e = (c, none)) ∧
    (e.origin ≠ c.appOrigin_ → handleMessageEvent c e = (c, none)) := by
  constructor
  · intro hfail
    refine handleMessageEvent_not_accepted c e ?_
    cases hm : msgAccepted c e
    · rfl
    · exfalso
      apply hfail
      simp only [msgAccepted, Bool.and_eq_true, beq_iff_eq] at hm
      exact ⟨hm.1.1.1, hm.1.1.2, hm.1.2, hm.2⟩
  · intro horig
    refine handleMessageEvent_not_accepted c e ?_
    cases hm : msgAccepted c e
    · rfl
    · exfalso
      simp only [msgAccepted, Bool.and_eq_true, beq_iff_eq] at hm
      exact horig hm.1.1.2

/-- Witness for C2_theorem: a message carrying the right window id and
action but the wrong origin is dropped without any state change. -/
theorem C2_witness :
    handleMessageEvent ctxMinimal
      { origin := "https://attacker.example",
        data := .objv (.cons "appWindowId" (.strv FIXED_APP_WINDOW_ID_1)
          (.cons "action" (.strv "sessionCreated") .nil)) } =
      (ctxMinimal, none) :=
  (C2_theorem ctxMinimal
    { origin := "https://attacker.example",
      data := .objv (.cons "appWindowId" (.strv FIXED_APP_WINDOW_ID_1)
        (.cons "action" (.strv "sessionCreated") .nil)) }).2 (by decide)

theorem AppContext_build_received (opts : AppOptions) (env : Env)
    (c : AppContext) (h : AppContext.build opts env = .ok c) :
    c.receivedAppOutcome_ = false := by
  rw [AppContext_build_eq] at h
  split_ifs at h <;>
    first
      | (simp only [Except.ok.injEq] at h
         subst h
         rfl)
      | simp at h

/-- C3: once an accepted "success"/"failure" message has set the outcome
flag, any later poll tick that observes the window closed invokes onFinish
with the empty payload object (when onFinish is registered); and for a
session built by the AppContext constructor in which no "success"/"failure"
message is ever accepted, a poll tick that observes the window closed
invokes onCancel with the empty payload (when onCancel is registered). -/
theorem C3_theorem (opts : AppOptions) (env : Env) (c0 c' : AppContext)
    (e : MessageEvent) (r : Option (JSVal × JSVal)) (ops : List SessionOp) :
    (handleMessageEvent c0 e = (c', r) →
     msgAccepted c0 e = true →
     (getField (msgData e) "action" = .strv Action.SUCCESS ∨
      getField (msgData e) "action" = .strv Action.FAILURE) →
     jsTruthy (runOps c' ops).onFinish_ = true →
     (runOps c' ops).appWindowClosed = true →
     (pollAppWindowClosed_ (runOps c' ops)).1 =
       some ((runOps c' ops).onFinish_, .objv .nil)) ∧
    (AppContext.build opts env = .ok c0 →
     noOutcomeAccepted c0 ops = true →
     jsTruthy (runOps c0 ops).onCancel_ = true →
     (runOps c0 ops).appWindowClosed = true →
     (pollAppWindowClosed_ (runOps c0 ops)).1 =
       some ((runOps c0 ops).onCancel_, .objv .nil)) := by
  constructor
  · intro hmsg hacc hact hfin hclosed
    have hrec : c'.receivedAppOutcome_ = true := by
      have := handleMessageEvent_outcome c0 e hacc hact
      rwa [hmsg] at this
    have hrec' := runOps_received_mono ops c' hrec
    simp [pollAppWindowClosed_, hclosed, hrec', hfin]
  · intro hbuild hno hcancel hclosed
    have hrec : c0.receivedAppOutcome_ = false :=
      AppContext_build_received opts env c0 hbuild
    have hrec' := runOps_received_false ops c0 hrec hno
    simp [pollAppWindowClosed_, hclosed, hrec', hcancel]

/-- An appOptions object with the required callback plus onFinish and
onCancel. -/
def richAppOptionsObject : JSVal :=
  .objv (.cons "onSessionCreated" (.funv 0)
    (.cons "onFinish" (.funv 1) (.cons "onCancel" (.funv 2) .nil)))

/-- The validated options of richAppOptionsObject. -/
def richOpts : AppOptions := {
  onSessionCreated := .funv 0
  onReady := .undefv
  onSuccess := .undefv
  onFailure := .undefv
  onFinish := .funv 1
  onCancel := .funv 2
  contentHeight := .undefv
  contentWidth := .undefv
  integratorId := .undefv
  tokenSetting := .undefv
  cardSetting := .undefv
  isTestEnvironment := .undefv
  clientSessionId := .undefv
  hl := .undefv }

/-- The session built from richOpts in defaultEnv. -/
def ctxRich : AppContext := {
  onSessionCreated := .funv 0
  onReady := .undefv
  onSuccess := .undefv
  onFailure := .undefv
  onFinish_ := .funv 1
  onCancel_ := .funv 2
  appWindowId_ := FIXED_APP_WINDOW_ID_1
  appOrigin_ := PROD_GOOGLE_PAY_ORIGIN
  hasAppWindow_ := true
  appWindowClosed := false
  receivedAppOutcome_ := false }

/-- ctxRich after an accepted outcome message. -/
def ctxRichOutcome : AppContext := { ctxRich with receivedAppOutcome_ := true }

/-- A well-formed "success" message for ctxRich. -/
def successMsg : MessageEvent := {
  origin := PROD_GOOGLE_PAY_ORIGIN
  data := .objv (.cons "appWindowId" (.strv FIXED_APP_WINDOW_ID_1)
    (.cons "action" (.strv "success") .nil)) }

/-- Witness for C3_theorem: an accepted success message then window closure
fires onFinish with {}; a session with no outcome whose window closes fires
onCancel with {}. -/
theorem C3_witness :
    (pollAppWindowClosed_ (runOps ctxRichOutcome [SessionOp.externalClose])).1 =
      some ((runOps ctxRichOutcome [SessionOp.externalClose]).onFinish_,
        .objv .nil) ∧
    (pollAppWindowClosed_ (runOps ctxRich [SessionOp.externalClose])).1 =
      some ((runOps ctxRich [SessionOp.externalClose]).onCancel_, .objv .nil) :=
  ⟨(C3_theorem richOpts defaultEnv ctxRich ctxRichOutcome successMsg none
      [SessionOp.externalClose]).1 (by decide) (by decide)
      (Or.inl (by decide)) (by decide) (by decide),
   (C3_theorem richOpts defaultEnv ctxRich ctxRichOutcome successMsg none
      [SessionOp.externalClose]).2 (by rfl) (by decide) (by decide)
      (by decide)⟩

theorem AppOptions_build_eq (v : JSVal) :
    AppOptions.build v =
      (if jsTypeof (getField v "onSessionCreated") = "function" then
        if jsTypeof (getField v "onReady") = "function" ∨ jsTypeof (getField v "onReady") = "undefined" then
          if jsTypeof (getField v "onSuccess") = "function" ∨ jsTypeof (getField v "onSuccess") = "undefined" then
            if jsTypeof (getField v "onFailure") = "function" ∨ jsTypeof (getField v "onFailure") = "undefined" then
              if jsTypeof (getField v "onFinish") = "function" ∨ jsTypeof (getField v "onFinish") = "undefined" then
                if jsTypeof (getField v "onCancel") = "function" ∨ jsTypeof (getField v "onCancel") = "undefined" then
                  if jsTypeof (getField v "contentHeight") = "number" ∨ jsTypeof (getField v "contentHeight") = "undefined" then
                    if jsTypeof (getField v "contentWidth") = jsTypeof (getField v "contentHeight") then
                      .ok {
                        onSessionCreated := getField v "onSessionCreated"
                        onReady := getField v "onReady"
                        onSuccess := getField v "onSuccess"
                        onFailure := getField v "onFailure"
                        onFinish := getField v "onFinish"
                        onCancel := getField v "onCancel"
                        contentHeight := getField v "contentHeight"
                        contentWidth := getField v "contentWidth"
                        integratorId := getField v "integratorId"
                        tokenSetting := getField v "tokenSetting"
                        cardSetting := getField v "cardSetting"
                        isTestEnvironment := getField v "isTestEnvironment"
                        clientSessionId := getField v "clientSessionId"
                        hl := getField v "hl" }
                    else .error ErrorCode.INVALID_CONTENT_DIMENSIONS
                  else .error ErrorCode.INVALID_CONTENT_DIMENSIONS
                else .error ErrorCode.INVALID_OPTIONAL_CALLBACK
              else .error ErrorCode.INVALID_OPTIONAL_CALLBACK
            else .error ErrorCode.INVALID_OPTIONAL_CALLBACK
          else .error ErrorCode.INVALID_OPTIONAL_CALLBACK
        else .error ErrorCode.INVALID_OPTIONAL_CALLBACK
      else .error ErrorCode.INVALID_OR_MISSING_ON_SESSION_CREATED) := by
  unfold AppOptions.build assertValueType assert
  by_cases h1 : jsTypeof (getField v "onSessionCreated") = "function"
  case neg => simp [h1, Bind.bind, Except.bind]
  case pos =>
  by_cases h2 : jsTypeof (getField v "onReady") = "function" ∨ jsTypeof (getField v "onReady") = "undefined"
  case neg => simp [h1, h2, Bind.bind, Except.bind, Pure.pure, Except.pure]
  case pos =>
  by_cases h3 : jsTypeof (getField v "onSuccess") = "function" ∨ jsTypeof (getField v "onSuccess") = "undefined"
  case neg => simp [h1, h2, h3, Bind.bind, Except.bind, Pure.pure, Except.pure]
  case pos =>
  by_cases h4 : jsTypeof (getField v "onFailure") = "function" ∨ jsTypeof (getField v "onFailure") = "undefined"
  case neg => simp [h1, h2, h3, h4, Bind.bind, Except.bind, Pure.pure, Except.pure]
  case pos =>
  by_cases h5 : jsTypeof (getField v "onFinish") = "function" ∨ jsTypeof (getField v "onFinish") = "undefined"
  case neg => simp [h1, h2, h3, h4, h5, Bind.bind, Except.bind, Pure.pure, Except.pure]
  case pos =>
  by_cases h6 : jsTypeof (getField v "onCancel") = "function" ∨ jsTypeof (getField v "onCancel") = "undefined"
  case neg => simp [h1, h2, h3, h4, h5, h6, Bind.bind, Except.bind, Pure.pure, Except.pure]
  case pos =>
  by_cases h7 : jsTypeof (getField v "contentHeight") = "number" ∨ jsTypeof (getField v "contentHeight") = "undefined"
  case neg => simp [h1, h2, h3, h4, h5, h6, h7, Bind.bind, Except.bind, Pure.pure, Except.pure]
  case pos =>
  by_cases h8 : jsTypeof (getField v "contentWidth") = jsTypeof (getField v "contentHeight")
  case neg => simp [h1, h2, h3, h4, h5, h6, h7, h8, Bind.bind, Except.bind, Pure.pure, Except.pure]
  case pos => simp [h1, h2, h3, h4, h5, h6, h7, h8, Bind.bind, Except.bind, Pure.pure, Except.pure]

/-- C4: with a valid configuration, openAppWindow throws E410 when the
current session's window is still open; when there is no session or its
window is closed, it never throws E410, and (when window.open returns a
handle) installs a fresh session as the new singleton, discarding the
previous one. -/
theorem C4_theorem (v : JSVal) (env : Env) (cur : Option AppContext)
    (opts : AppOptions)
    (hobj : jsTypeof v = "object") (hnn : v ≠ .nullv)
    (hvalid : AppOptions.build v = .ok opts) :
    ((∃ c, cur = some c ∧ isAppWindowOpen c = true) →
      openAppWindow v env cur = .error ErrorCode.APP_WINDOW_ALREADY_OPEN) ∧
    ((∀ c, cur = some c → isAppWindowOpen c = false) →
      (∀ err, openAppWindow v env cur = .error err →
        err ≠ ErrorCode.APP_WINDOW_ALREADY_OPEN) ∧
      (env.windowOpenSucceeds = true →
        ∃ ctx, openAppWindow v env cur = .ok ctx ∧
          runOpenAppWindow v env cur = (none, some ctx))) := by
  have heq := openAppWindow_eq v env cur
  rw [hvalid] at heq
  simp only [hobj, hnn, if_true, if_false] at heq
  constructor
  · rintro ⟨c, rfl, hopen⟩
    rw [heq]
    simp [curWindowFree, hopen]
  · intro hclosed
    have hcond : curWindowFree cur = true := by
      cases cur with
      | none => rfl
      | some c => simp [curWindowFree, hclosed c rfl]
    constructor
    · intro err herr
      rw [heq, if_pos hcond, AppContext_build_eq] at herr
      split_ifs at herr
      all_goals
        first
          | exact Except.noConfusion herr
          | (simp only [Except.error.injEq] at herr
             subst herr
             decide)
    · intro hsucc
      have hok : openAppWindow v env cur =
            .ok { onSessionCreated := opts.onSessionCreated
                  onReady := opts.onReady
                  onSuccess := opts.onSuccess
                  onFailure := opts.onFailure
                  onFinish_ := opts.onFinish
                  onCancel_ := opts.onCancel
                  appWindowId_ :=
                    if env.windowName = FIXED_APP_WINDOW_ID_1 then
                      FIXED_APP_WINDOW_ID_2
                    else FIXED_APP_WINDOW_ID_1
                  appOrigin_ :=
                    if jsTruthy opts.isTestEnvironment then
                      TEST_GOOGLE_PAY_ORIGIN
                    else PROD_GOOGLE_PAY_ORIGIN
                  hasAppWindow_ := env.windowOpenSucceeds
                  appWindowClosed := false
                  receivedAppOutcome_ := false } := by
        rw [heq, if_pos hcond, AppContext_build_eq, if_pos hsucc]
      exact ⟨_, hok, by simp [runOpenAppWindow, hok]⟩

/-- The validated options of minimalAppOptionsObject. -/
def minimalOpts : AppOptions := {
  onSessionCreated := .funv 0
  onReady := .undefv
  onSuccess := .undefv
  onFailure := .undefv
  onFinish := .undefv
  onCancel := .undefv
  contentHeight := .undefv
  contentWidth := .undefv
  integratorId := .undefv
  tokenSetting := .undefv
  cardSetting := .undefv
  isTestEnvironment := .undefv
  clientSessionId := .undefv
  hl := .undefv }

/-- Witness for C4_theorem: a second open against the still-open ctxMinimal
throws E410; an open with no current session installs a fresh session. -/
theorem C4_witness :
    openAppWindow minimalAppOptionsObject defaultEnv (some ctxMinimal) =
      .error ErrorCode.APP_WINDOW_ALREADY_OPEN ∧
    (∃ ctx, openAppWindow minimalAppOptionsObject defaultEnv none = .ok ctx ∧
      runOpenAppWindow minimalAppOptionsObject defaultEnv none =
        (none, some ctx)) :=
  ⟨(C4_theorem minimalAppOptionsObject defaultEnv (some ctxMinimal)
      minimalOpts (by rfl) (by decide) (by rfl)).1
      ⟨ctxMinimal, rfl, by decide⟩,
   ((C4_theorem minimalAppOptionsObject defaultEnv none minimalOpts
      (by rfl) (by decide) (by rfl)).2
      (fun c hc => by cases hc)).2 (by rfl)⟩

/-- C5: an appOptions object whose onSessionCreated field is absent or not
a function makes openAppWindow throw E407, and the singleton session is
left unchanged (no session is created). -/
theorem C5_theorem (v : JSVal) (env : Env) (cur : Option AppContext)
    (hobj : jsTypeof v = "object") (hnn : v ≠ .nullv)
    (hbad : jsTypeof (getField v "onSessionCreated") ≠ "function") :
    openAppWindow v env cur =
      .error ErrorCode.INVALID_OR_MISSING_ON_SESSION_CREATED ∧
    runOpenAppWindow v env cur =
      (some ErrorCode.INVALID_OR_MISSING_ON_SESSION_CREATED, cur) := by
  have hb : AppOptions.build v =
      .error ErrorCode.INVALID_OR_MISSING_ON_SESSION_CREATED := by
    rw [AppOptions_build_eq]
    simp [hbad]
  have heq := openAppWindow_eq v env cur
  rw [hb] at heq
  simp only [hobj, hnn, if_true, if_false] at heq
  exact ⟨heq, by simp [runOpenAppWindow, heq]⟩

/-- Witness for C5_theorem: an object with no fields at all. -/
theorem C5_witness :
    openAppWindow (.objv .nil) defaultEnv none =
      .error ErrorCode.INVALID_OR_MISSING_ON_SESSION_CREATED ∧
    runOpenAppWindow (.objv .nil) defaultEnv none =
      (some ErrorCode.INVALID_OR_MISSING_ON_SESSION_CREATED, none) :=
  C5_theorem (.objv .nil) defaultEnv none (by rfl) (by decide) (by decide)

/-- C6: with valid callback fields, openAppWindow throws E409 exactly when
the contentHeight/contentWidth pair is neither both-numeric nor
both-undefined (in particular when exactly one of them is defined); when
both are unset or both numeric, no E409 is ever thrown. -/
theorem C6_theorem (v : JSVal) (env : Env) (cur : Option AppContext)
    (hobj : jsTypeof v = "object") (hnn : v ≠ .nullv)
    (hsess : jsTypeof (getField v "onSessionCreated") = "function")
    (hopt : ∀ k ∈ ["onReady", "onSuccess", "onFailure", "onFinish",
        "onCancel"],
      jsTypeof (getField v k) = "function" ∨
        jsTypeof (getField v k) = "undefined") :
    (¬((jsTypeof (getField v "contentHeight") = "number" ∧
         jsTypeof (getField v "contentWidth") = "number") ∨
       (jsTypeof (getField v "contentHeight") = "undefined" ∧
         jsTypeof (getField v "contentWidth") = "undefined")) →
      openAppWindow v env cur = .error ErrorCode.INVALID_CONTENT_DIMENSIONS) ∧
    (((jsTypeof (getField v "contentHeight") = "number" ∧
        jsTypeof (getField v "contentWidth") = "number") ∨
      (jsTypeof (getField v "contentHeight") = "undefined" ∧
        jsTypeof (getField v "contentWidth") = "undefined")) →
      ∀ err, openAppWindow v env cur = .error err →
        err ≠ ErrorCode.INVALID_CONTENT_DIMENSIONS) := by
  have hr := hopt "onReady" (by simp)
  have hsu := hopt "onSuccess" (by simp)
  have hfa := hopt "onFailure" (by simp)
  have hfi := hopt "onFinish" (by simp)
  have hca := hopt "onCancel" (by simp)
  constructor
  · intro hbaddims
    have hb : AppOptions.build v =
        .error ErrorCode.INVALID_CONTENT_DIMENSIONS := by
      rw [AppOptions_build_eq]
      simp only [hsess, hr, hsu, hfa, hfi, hca, if_true]
      by_cases h7 : jsTypeof (getField v "contentHeight") = "number" ∨
          jsTypeof (getField v "contentHeight") = "undefined"
      · by_cases h8 : jsTypeof (getField v "contentWidth") =
            jsTypeof (getField v "contentHeight")
        · exfalso
          apply hbaddims
          rcases h7 with h7 | h7
          · exact Or.inl ⟨h7, h8.trans h7⟩
          · exact Or.inr ⟨h7, h8.trans h7⟩
        · simp [h7, h8]
      · simp [h7]
    have heq := openAppWindow_eq v env cur
    rw [hb] at heq
    simp only [hobj, hnn, if_true, if_false] at heq
    exact heq
  · intro hgooddims err herr
    have h7 : jsTypeof (getField v "contentHeight") = "number" ∨
        jsTypeof (getField v "contentHeight") = "undefined" := by
      rcases hgooddims with h | h
      · exact Or.inl h.1
      · exact Or.inr h.1
    have h8 : jsTypeof (getField v "contentWidth") =
        jsTypeof (getField v "contentHeight") := by
      rcases hgooddims with h | h
      · exact h.2.trans h.1.symm
      · exact h.2.trans h.1.symm
    have hb : AppOptions.build v = .ok {
        onSessionCreated := getField v "onSessionCreated"
        onReady := getField v "onReady"
        onSuccess := getField v "onSuccess"
        onFailure := getField v "onFailure"
        onFinish := getField v "onFinish"
        onCancel := getField v "onCancel"
        contentHeight := getField v "contentHeight"
        contentWidth := getField v "contentWidth"
        integratorId := getField v "integratorId"
        tokenSetting := getField v "tokenSetting"
        cardSetting := getField v "cardSetting"
        isTestEnvironment := getField v "isTestEnvironment"
        clientSessionId := getField v "clientSessionId"
        hl := getField v "hl" } := by
      rw [AppOptions_build_eq]
      simp [hsess, hr, hsu, hfa, hfi, hca, h7, h8]
    have heq := openAppWindow_eq v env cur
    rw [hb] at heq
    simp only [hobj, hnn, if_true, if_false] at heq
    rw [heq] at herr
    by_cases hcond : curWindowFree cur = true
    · rw [if_pos hcond, AppContext_build_eq] at herr
      split_ifs at herr
      all_goals
        first
          | exact Except.noConfusion herr
          | (simp only [Except.error.injEq] at herr
             subst herr
             decide)
    · rw [if_neg hcond] at herr
      simp only [Except.error.injEq] at herr
      subst herr
      decide

/-- An otherwise valid appOptions object that sets contentHeight only. -/
def heightOnlyObject : JSVal :=
  .objv (.cons "onSessionCreated" (.funv 0)
    (.cons "contentHeight" (.numv 500) .nil))

/-- Witness for C6_theorem: a height-only object throws E409; a dimensionless
object can only fail with a different code (here E410 from an open session).
-/
theorem C6_witness :
    openAppWindow heightOnlyObject defaultEnv none =
      .error ErrorCode.INVALID_CONTENT_DIMENSIONS ∧
    ErrorCode.APP_WINDOW_ALREADY_OPEN ≠ ErrorCode.INVALID_CONTENT_DIMENSIONS :=
  ⟨(C6_theorem heightOnlyObject defaultEnv none (by rfl) (by decide)
      (by decide) (by decide)).1 (by decide),
   (C6_theorem minimalAppOptionsObject defaultEnv (some ctxMinimal) (by rfl)
      (by decide) (by decide) (by decide)).2 (Or.inr ⟨by decide, by decide⟩)
      ErrorCode.APP_WINDOW_ALREADY_OPEN (by rfl)⟩

/-- C7: for numeric nonzero dimensions the window-feature string is
"height=H,width=W" with H the larger of 700 and contentHeight and W the
larger of 1100 and contentWidth. -/
theorem C7_theorem (opts : AppOptions) (h w : Int)
    (hh : opts.contentHeight = .numv h) (hw : opts.contentWidth = .numv w)
    (hh0 : h ≠ 0) (hw0 : w ≠ 0) :
    MIN_CONTENT_HEIGHT = 700 ∧ MIN_CONTENT_WIDTH = 1100 ∧
    getAppWindowFeatures_ opts =
      ("height=" ++ toString (max MIN_CONTENT_HEIGHT h)) ++ "," ++
        ("width=" ++ toString (max MIN_CONTENT_WIDTH w)) := by
  refine ⟨rfl, rfl, ?_⟩
  unfold getAppWindowFeatures_
  rw [hh, hw]
  rw [if_neg (by simp [jsTruthy, hh0, hw0])]
  unfold joinParams
  simp only [List.map, jsMaxNum]
  simp [String.intercalate, String.intercalate.go]

/-- minimalOpts with the given numeric content dimensions. -/
def dimOpts (hh ww : Int) : AppOptions :=
  { minimalOpts with contentHeight := JSVal.numv hh, contentWidth := JSVal.numv ww }

/-- Witness for C7_theorem: 500x500 is clamped to the 700x1100 floor, and
900x1200 passes through unchanged. -/
theorem C7_witness :
    getAppWindowFeatures_ (dimOpts 500 500) = "height=700,width=1100" ∧
    getAppWindowFeatures_ (dimOpts 900 1200) = "height=900,width=1200" :=
  ⟨by
    rw [(C7_theorem (dimOpts 500 500) 500 500 rfl rfl (by decide)
      (by decide)).2.2]
    decide,
   by
    rw [(C7_theorem (dimOpts 900 1200) 900 1200 rfl rfl (by decide)
      (by decide)).2.2]
    decide⟩

/-- C8: the outcome-received flag is monotone - once true it stays true
under every session operation - and an accepted "success"/"failure" message
sets it in the state returned by handleMessageEvent (the state in which the
dispatched callback then runs). -/
theorem C8_theorem (c c' : AppContext) (ops : List SessionOp)
    (e : MessageEvent) (r : Option (JSVal × JSVal)) :
    (c.receivedAppOutcome_ = true →
      (runOps c ops).receivedAppOutcome_ = true) ∧
    (handleMessageEvent c e = (c', r) →
     msgAccepted c e = true →
     (getField (msgData e) "action" = .strv Action.SUCCESS ∨
      getField (msgData e) "action" = .strv Action.FAILURE) →
     c'.receivedAppOutcome_ = true) := by
  constructor
  · exact runOps_received_mono ops c
  · intro hmsg hacc hact
    have hout := handleMessageEvent_outcome c e hacc hact
    rwa [hmsg] at hout

/-- Witness for C8_theorem: a concrete outcome-flagged session stays
flagged across an external close, and an accepted success message flags the
session. -/
theorem C8_witness :
    (runOps ctxRichOutcome [SessionOp.externalClose]).receivedAppOutcome_ =
      true ∧
    ctxRichOutcome.receivedAppOutcome_ = true :=
  ⟨(C8_theorem ctxRichOutcome ctxRichOutcome [SessionOp.externalClose]
      successMsg none).1 (by decide),
   (C8_theorem ctxRich ctxRichOutcome [SessionOp.externalClose] successMsg
      none).2 (by decide) (by decide) (Or.inl (by decide))⟩

theorem processUrlParam_keys (encode : String → String)
    (m : List (String × String)) (k : String) (val : JSVal) (s : String)
    (hs : s ∈ (processUrlParam encode m k val).map Prod.fst) :
    s ∈ m.map Prod.fst ∨ s = k := by
  unfold processUrlParam at hs
  split_ifs at hs
  · rw [List.map_append, List.mem_append] at hs
    rcases hs with hs | hs
    · exact Or.inl hs
    · simp at hs
      exact Or.inr hs
  · exact Or.inl hs

theorem processUrlParam_skip (encode : String → String)
    (m : List (String × String)) (k : String) :
    processUrlParam encode m k (.strv "") = m := by
  simp [processUrlParam]

/-- C9: numeric dimensions with at least one equal to 0 pass validation, yet
the window-feature string is empty, no windowFeatures URL parameter is
emitted, and the query string equals the one computed with both dimensions
absent. -/
theorem C9_theorem (v : JSVal) (hgt wdt : Int)
    (hobj : jsTypeof v = "object") (hnn : v ≠ .nullv)
    (hsess : jsTypeof (getField v "onSessionCreated") = "function")
    (hopt : ∀ k ∈ ["onReady", "onSuccess", "onFailure", "onFinish",
        "onCancel"],
      jsTypeof (getField v k) = "function" ∨
        jsTypeof (getField v k) = "undefined")
    (hh : getField v "contentHeight" = .numv hgt)
    (hw : getField v "contentWidth" = .numv wdt)
    (hzero : hgt = 0 ∨ wdt = 0) :
    ∃ opts, AppOptions.build v = .ok opts ∧
      getAppWindowFeatures_ opts = "" ∧
      ∀ (encode : String → String) (pageOrigin : String),
        "windowFeatures" ∉
          (getUrlParamMap_ encode pageOrigin opts
            (getAppWindowFeatures_ opts)).map Prod.fst ∧
        getAppQueryString_ encode pageOrigin opts
            (getAppWindowFeatures_ opts) =
          getAppQueryString_ encode pageOrigin
            { opts with contentHeight := .undefv, contentWidth := .undefv }
            (getAppWindowFeatures_
              { opts with contentHeight := .undefv, contentWidth := .undefv })
      := by
  have hr := hopt "onReady" (by simp)
  have hsu := hopt "onSuccess" (by simp)
  have hfa := hopt "onFailure" (by simp)
  have hfi := hopt "onFinish" (by simp)
  have hca := hopt "onCancel" (by simp)
  have h7 : jsTypeof (getField v "contentHeight") = "number" ∨
      jsTypeof (getField v "contentHeight") = "undefined" :=
    Or.inl (by rw [hh]; rfl)
  have h8 : jsTypeof (getField v "contentWidth") =
      jsTypeof (getField v "contentHeight") := by
    rw [hh, hw]
    rfl
  have hb : AppOptions.build v = .ok {
      onSessionCreated := getField v "onSessionCreated"
      onReady := getField v "onReady"
      onSuccess := getField v "onSuccess"
      onFailure := getField v "onFailure"
      onFinish := getField v "onFinish"
      onCancel := getField v "onCancel"
      contentHeight := getField v "contentHeight"
      contentWidth := getField v "contentWidth"
      integratorId := getField v "integratorId"
      tokenSetting := getField v "tokenSetting"
      cardSetting := getField v "cardSetting"
      isTestEnvironment := getField v "isTestEnvironment"
      clientSessionId := getField v "clientSessionId"
      hl := getField v "hl" } := by
    rw [AppOptions_build_eq]
    simp [hsess, hr, hsu, hfa, hfi, hca, h7, h8]
  have hfeat : getAppWindowFeatures_ {
      onSessionCreated := getField v "onSessionCreated"
      onReady := getField v "onReady"
      onSuccess := getField v "onSuccess"
      onFailure := getField v "onFailure"
      onFinish := getField v "onFinish"
      onCancel := getField v "onCancel"
      contentHeight := getField v "contentHeight"
      contentWidth := getField v "contentWidth"
      integratorId := getField v "integratorId"
      tokenSetting := getField v "tokenSetting"
      cardSetting := getField v "cardSetting"
      isTestEnvironment := getField v "isTestEnvironment"
      clientSessionId := getField v "clientSessionId"
      hl := getField v "hl" } = "" := by
    unfold getAppWindowFeatures_
    rcases hzero with hz | hz <;> simp [hh, hw, hz, jsTruthy]
  refine ⟨_, hb, hfeat, ?_⟩
  intro encode pageOrigin
  constructor
  · rw [hfeat]
    intro hmem
    unfold getUrlParamMap_ at hmem
    rw [processUrlParam_skip] at hmem
    rcases processUrlParam_keys _ _ _ _ _ hmem with hmem | hk
    · rcases processUrlParam_keys _ _ _ _ _ hmem with hmem | hk
      · rcases processUrlParam_keys _ _ _ _ _ hmem with hmem | hk
        · rcases processUrlParam_keys _ _ _ _ _ hmem with hmem | hk
          · rcases processUrlParam_keys _ _ _ _ _ hmem with hmem | hk
            · simp at hmem
            · exact absurd hk (by decide)
          · exact absurd hk (by decide)
        · exact absurd hk (by decide)
      · exact absurd hk (by decide)
    · exact absurd hk (by decide)
  · have hfeat2 : getAppWindowFeatures_
        { onSessionCreated := getField v "onSessionCreated"
          onReady := getField v "onReady"
          onSuccess := getField v "onSuccess"
          onFailure := getField v "onFailure"
          onFinish := getField v "onFinish"
          onCancel := getField v "onCancel"
          contentHeight := JSVal.undefv
          contentWidth := JSVal.undefv
          integratorId := getField v "integratorId"
          tokenSetting := getField v "tokenSetting"
          cardSetting := getField v "cardSetting"
          isTestEnvironment := getField v "isTestEnvironment"
          clientSessionId := getField v "clientSessionId"
          hl := getField v "hl" } = "" := by
      simp [getAppWindowFeatures_, jsTruthy]
    rw [hfeat]
    unfold getAppQueryString_
    rfl

/-- An appOptions object with contentHeight 0 and contentWidth 500. -/
def zeroDimObject : JSVal :=
  .objv (.cons "onSessionCreated" (.funv 0)
    (.cons "contentHeight" (.numv 0) (.cons "contentWidth" (.numv 500) .nil)))

/-- The validated options of zeroDimObject. -/
def zeroDimOpts : AppOptions :=
  { minimalOpts with contentHeight := .numv 0, contentWidth := .numv 500 }

/-- Witness for C9_theorem at contentHeight=0, contentWidth=500. -/
theorem C9_witness :
    AppOptions.build zeroDimObject = .ok zeroDimOpts ∧
    getAppWindowFeatures_ zeroDimOpts = "" ∧
    "windowFeatures" ∉
      (getUrlParamMap_ id "https://host.example" zeroDimOpts
        (getAppWindowFeatures_ zeroDimOpts)).map Prod.fst ∧
    getAppQueryString_ id "https://host.example" zeroDimOpts
        (getAppWindowFeatures_ zeroDimOpts) =
      getAppQueryString_ id "https://host.example"
        { zeroDimOpts with contentHeight := .undefv, contentWidth := .undefv }
        (getAppWindowFeatures_
          { zeroDimOpts with contentHeight := .undefv, contentWidth := .undefv })
      := by
  obtain ⟨opts, h1, h2, h3⟩ := C9_theorem zeroDimObject 0 500 (by rfl)
    (by decide) (by decide) (by decide) (by rfl) (by rfl) (Or.inl rfl)
  have h0 : AppOptions.build zeroDimObject = Except.ok zeroDimOpts := by rfl
  rw [h0] at h1
  injection h1 with h1
  subst h1
  exact ⟨h0, h2, (h3 id "https://host.example").1,
    (h3 id "https://host.example").2⟩

/-- C10: whenever openAppWindow throws, the singleton session reference is
exactly what it was before the call; in particular a window-creation
failure (E411) leaves the previous session - not a partially constructed
one - installed. -/
theorem C10_theorem (v : JSVal) (env : Env) (cur : Option AppContext)
    (err : String) :
    (openAppWindow v env cur = .error err →
      runOpenAppWindow v env cur = (some err, cur)) ∧
    (env.windowOpenSucceeds = false →
     jsTypeof v = "object" → v ≠ .nullv →
     (∃ opts, AppOptions.build v = .ok opts) →
     curWindowFree cur = true →
     openAppWindow v env cur = .error ErrorCode.APP_WINDOW_NOT_OPENED ∧
     runOpenAppWindow v env cur =
       (some ErrorCode.APP_WINDOW_NOT_OPENED, cur)) := by
  constructor
  · intro herr
    simp [runOpenAppWindow, herr]
  · rintro hfail hobj hnn ⟨opts, hvalid⟩ hfree
    have heq := openAppWindow_eq v env cur
    rw [hvalid] at heq
    simp only [hobj, hnn, if_true, if_false] at heq
    rw [if_pos hfree, AppContext_build_eq] at heq
    rw [if_neg (by simp [hfail])] at heq
    exact ⟨heq, by simp [runOpenAppWindow, heq]⟩

/-- Witness for C10_theorem: with window.open failing, an open call against
a closed previous session throws E411 and the previous session remains
the singleton. -/
theorem C10_witness :
    openAppWindow minimalAppOptionsObject
        { windowName := "", windowOpenSucceeds := false }
        (some (closeAppWindow ctxMinimal)) =
      .error ErrorCode.APP_WINDOW_NOT_OPENED ∧
    runOpenAppWindow minimalAppOptionsObject
        { windowName := "", windowOpenSucceeds := false }
        (some (closeAppWindow ctxMinimal)) =
      (some ErrorCode.APP_WINDOW_NOT_OPENED, some (closeAppWindow ctxMinimal))
      :=
  (C10_theorem minimalAppOptionsObject
    { windowName := "", windowOpenSucceeds := false }
    (some (closeAppWindow ctxMinimal)) ErrorCode.APP_WINDOW_NOT_OPENED).2
    rfl (by rfl) (by decide) ⟨minimalOpts, by rfl⟩ (by decide)
